import Mathlib

/-!
liblight (`src/liblight/lights.c`): arbitration and blink-waveform synthesis.

A shallow embedding of the RGB indicator logic of `lights.c`.

* C `int` values are `Int`; a conversion to `int` is the explicit wrap `int32`.
* C `unsigned int` values are `Nat`; unsigned results are wrapped with `uint32`.
* `RAMP_SIZE` is a `sizeof` quotient, so it has type `size_t`; arithmetic that
  mixes it with an `int` is carried out modulo `2 ^ 64` (`size_t`, LP64).
* `write_int` / `write_str` are recorded as a trace of calls (`Call`), in program
  order.  `set_speaker_light_locked` discards their return values, so the trace
  does not depend on whether an individual write succeeds.  The bodies of the two
  functions (outcome of `open` / `write`, the static `already_warned`, the error
  log) are `exec_write_int` / `exec_write_str`, run over a trace by `run_calls`.
  The verbose `ALOGV` line of `get_scaled_duty_pcts` is not modelled.
* `x >> n` on an `int` is `shr`, the floor of `x / 2 ^ n`.
* The three globals `g_notification`, `g_battery`, `g_attention` are the fields of
  `Globals`, passed explicitly; the mutex is not modelled (every entry point
  holds it for its whole body).
-/

namespace Lights

/-! ## Machine integers -/

/-- Conversion of an integer value to C `int` (32-bit two's complement). -/
def int32 (x : Int) : Int := (x + 2 ^ 31) % 2 ^ 32 - 2 ^ 31

/-- Conversion of an integer value to C `size_t` (64-bit unsigned). -/
def size_t (x : Int) : Int := x % 2 ^ 64

/-- Reduction of a natural number to C `unsigned int` (32-bit). -/
def uint32 (x : Nat) : Nat := x % 2 ^ 32

/-- The C expression `x >> n` on an `int`: an arithmetic shift, that is, the floor
of `x / 2 ^ n`. -/
def shr (x : Int) (n : Nat) : Int := x / 2 ^ n

/-! ## `hardware/lights.h` -/

/-- Modelled from the spec: flash mode NONE of `hardware/lights.h` (the header
is not part of the sources); the numeric value is the one of the Android header. -/
def LIGHT_FLASH_NONE : Int := 0

/-- Modelled from the spec: flash mode TIMED of `hardware/lights.h`. -/
def LIGHT_FLASH_TIMED : Int := 1

/-- Modelled from the spec: flash mode HARDWARE of `hardware/lights.h`. -/
def LIGHT_FLASH_HARDWARE : Int := 2

/-- Modelled from the spec: `struct light_state_t` of `hardware/lights.h`, with the
fields of the spec's ColorState.  `color` is an `unsigned int`, the other fields
are `int`s (`flashMode` is compared against the `LIGHT_FLASH_*` constants). -/
structure light_state_t where
  color : Nat
  flashMode : Int
  flashOnMS : Int
  flashOffMS : Int
deriving DecidableEq, Repr

/-! ## Control files -/

/-- The sysfs control files named by the `char const*const` globals of `lights.c`. -/
inductive SysfsFile where
  | RED_LED_FILE | GREEN_LED_FILE | BLUE_LED_FILE
  | RED_DUTY_PCTS_FILE | GREEN_DUTY_PCTS_FILE | BLUE_DUTY_PCTS_FILE
  | RED_START_IDX_FILE | GREEN_START_IDX_FILE | BLUE_START_IDX_FILE
  | RED_PAUSE_LO_FILE | GREEN_PAUSE_LO_FILE | BLUE_PAUSE_LO_FILE
  | RED_PAUSE_HI_FILE | GREEN_PAUSE_HI_FILE | BLUE_PAUSE_HI_FILE
  | RED_RAMP_STEP_MS_FILE | GREEN_RAMP_STEP_MS_FILE | BLUE_RAMP_STEP_MS_FILE
  | LCD_FILE
  | BUTTON_FILE_0 | BUTTON_FILE_1
  | RED_BLINK_FILE | GREEN_BLINK_FILE | BLUE_BLINK_FILE
deriving DecidableEq, Repr

open SysfsFile

/-- The path string each global holds. -/
def SysfsFile.path : SysfsFile → String
  | RED_LED_FILE => "/sys/class/leds/led:rgb_red/brightness"
  | GREEN_LED_FILE => "/sys/class/leds/led:rgb_green/brightness"
  | BLUE_LED_FILE => "/sys/class/leds/led:rgb_blue/brightness"
  | RED_DUTY_PCTS_FILE => "/sys/class/leds/led:rgb_red/duty_pcts"
  | GREEN_DUTY_PCTS_FILE => "/sys/class/leds/led:rgb_green/duty_pcts"
  | BLUE_DUTY_PCTS_FILE => "/sys/class/leds/led:rgb_blue/duty_pcts"
  | RED_START_IDX_FILE => "/sys/class/leds/led:rgb_red/start_idx"
  | GREEN_START_IDX_FILE => "/sys/class/leds/led:rgb_green/start_idx"
  | BLUE_START_IDX_FILE => "/sys/class/leds/led:rgb_blue/start_idx"
  | RED_PAUSE_LO_FILE => "/sys/class/leds/led:rgb_red/pause_lo"
  | GREEN_PAUSE_LO_FILE => "/sys/class/leds/led:rgb_green/pause_lo"
  | BLUE_PAUSE_LO_FILE => "/sys/class/leds/led:rgb_blue/pause_lo"
  | RED_PAUSE_HI_FILE => "/sys/class/leds/led:rgb_red/pause_hi"
  | GREEN_PAUSE_HI_FILE => "/sys/class/leds/led:rgb_green/pause_hi"
  | BLUE_PAUSE_HI_FILE => "/sys/class/leds/led:rgb_blue/pause_hi"
  | RED_RAMP_STEP_MS_FILE => "/sys/class/leds/led:rgb_red/ramp_step_ms"
  | GREEN_RAMP_STEP_MS_FILE => "/sys/class/leds/led:rgb_green/ramp_step_ms"
  | BLUE_RAMP_STEP_MS_FILE => "/sys/class/leds/led:rgb_blue/ramp_step_ms"
  | LCD_FILE => "/sys/class/leds/lcd-backlight/brightness"
  | BUTTON_FILE_0 => "/sys/class/leds/button-backlight/brightness"
  | BUTTON_FILE_1 => "/sys/class/leds/button-backlight2/brightness"
  | RED_BLINK_FILE => "/sys/class/leds/led:rgb_red/blink"
  | GREEN_BLINK_FILE => "/sys/class/leds/led:rgb_green/blink"
  | BLUE_BLINK_FILE => "/sys/class/leds/led:rgb_blue/blink"

/-- One call of `write_int(path, value)` or `write_str(path, value)`. -/
inductive Call where
  | write_int (path : SysfsFile) (value : Int)
  | write_str (path : SysfsFile) (value : String)
deriving DecidableEq, Repr

open Call

/-- The file a call writes to. -/
def Call.file : Call → SysfsFile
  | write_int p _ => p
  | write_str p _ => p

/-- The calls of a trace that address file `f`, in order. -/
def callsTo (f : SysfsFile) (ws : List Call) : List Call :=
  ws.filter (fun w => decide (w.file = f))

/-! ## Ramp table and duty-cycle text -/

/-- The table `static int BRIGHTNESS_RAMP[]`. -/
def BRIGHTNESS_RAMP : List Int := [0, 12, 25, 37, 50, 72, 85, 100]

/-- The macro `RAMP_SIZE`: number of entries of `BRIGHTNESS_RAMP`. -/
def RAMP_SIZE : Nat := BRIGHTNESS_RAMP.length

/-- The macro `RAMP_STEP_DURATION`. -/
def RAMP_STEP_DURATION : Int := 50

/-- Result of `snprintf(temp, size, "%s%d", pad, d)`: the text of `pad` followed by
the decimal numeral of `d`, cut to the `size - 1` characters the buffer can hold. -/
def snprintf_sd (size : Nat) (pad : String) (d : Int) : String :=
  String.mk ((pad.data ++ (toString d).data).take (size - 1))

/-- The `for` loop of `get_scaled_duty_pcts`, over the remaining table entries,
with the current contents of `buf` and the current `pad`. -/
def get_scaled_duty_pcts_loop (brightness : Int) : List Int → String → String → String
  | [], buf, _ => buf
  | e :: rest, buf, pad =>
    get_scaled_duty_pcts_loop brightness rest
      (buf ++ snprintf_sd 5 pad ((int32 (e * brightness)).tdiv 255)) ","

/-- The function `get_scaled_duty_pcts(brightness)`: the text of the scaled table. -/
def get_scaled_duty_pcts (brightness : Int) : String :=
  get_scaled_duty_pcts_loop brightness BRIGHTNESS_RAMP "" ""

/-! ## Rendering one state -/

/-- The function `is_lit(state)`: the low 24 bits of the color, returned as an `int`. -/
def is_lit (state : light_state_t) : Int :=
  int32 ((state.color &&& 0x00ffffff : Nat) : Int)

/-- The timing computation at the head of the blink branch of
`set_speaker_light_locked`: the final `(stepDuration, pauseHi)` for a given `onMS`.
`stepDuration * RAMP_SIZE * 2` is evaluated in `size_t`, `onMS` is converted to
`size_t` for the subtraction, the comparison and the division, and the results are
converted back to `int` on assignment. -/
def blink_timing (onMS : Int) : Int × Int :=
  let stepDuration : Int := RAMP_STEP_DURATION
  let pauseHi : Int :=
    int32 (size_t (size_t onMS - size_t (size_t (size_t stepDuration * RAMP_SIZE) * 2)))
  if size_t (size_t (size_t stepDuration * RAMP_SIZE) * 2) > size_t onMS then
    (int32 (size_t onMS / size_t ((RAMP_SIZE : Int) * 2)), 0)
  else
    (stepDuration, pauseHi)

/-- The function `set_speaker_light_locked(dev, state)`: the return value and the
trace of `write_int` / `write_str` calls.  `dev` is the truth value of the device
pointer (`false` for `NULL`). -/
def set_speaker_light_locked (dev : Bool) (state : light_state_t) : Int × List Call :=
  if !dev then (-1, []) else
  -- switch (state->flashMode)
  let onMS : Int := if state.flashMode = LIGHT_FLASH_TIMED then state.flashOnMS else 0
  let offMS : Int := if state.flashMode = LIGHT_FLASH_TIMED then state.flashOffMS else 0
  let colorRGB : Nat := state.color
  let red : Int := (((colorRGB >>> 16) &&& 0xFF : Nat) : Int)
  let green : Int := (((colorRGB >>> 8) &&& 0xFF : Nat) : Int)
  let blue : Int := ((colorRGB &&& 0xFF : Nat) : Int)
  let blink : Bool := decide (onMS > 0) && decide (offMS > 0)
  -- disable all blinking to start
  let disable : List Call :=
    [write_int RED_BLINK_FILE 0, write_int GREEN_BLINK_FILE 0, write_int BLUE_BLINK_FILE 0]
  if blink then
    let stepDuration : Int := (blink_timing onMS).1
    let pauseHi : Int := (blink_timing onMS).2
    (0, disable ++
      -- red
      [write_int RED_START_IDX_FILE 0,
       write_str RED_DUTY_PCTS_FILE (get_scaled_duty_pcts red),
       write_int RED_PAUSE_LO_FILE offMS,
       write_int RED_PAUSE_HI_FILE pauseHi,
       write_int RED_RAMP_STEP_MS_FILE stepDuration,
      -- green
       write_int GREEN_START_IDX_FILE (int32 (RAMP_SIZE : Int)),
       write_str GREEN_DUTY_PCTS_FILE (get_scaled_duty_pcts green),
       write_int GREEN_PAUSE_LO_FILE offMS,
       write_int GREEN_PAUSE_HI_FILE pauseHi,
       write_int GREEN_RAMP_STEP_MS_FILE stepDuration,
      -- blue
       write_int BLUE_START_IDX_FILE (int32 (size_t ((RAMP_SIZE : Int) * 2))),
       write_str BLUE_DUTY_PCTS_FILE (get_scaled_duty_pcts blue),
       write_int BLUE_PAUSE_LO_FILE offMS,
       write_int BLUE_PAUSE_HI_FILE pauseHi,
       write_int BLUE_RAMP_STEP_MS_FILE stepDuration] ++
      -- start the party
      (if red ≠ 0 then [write_int RED_BLINK_FILE 1] else []) ++
      (if green ≠ 0 then [write_int GREEN_BLINK_FILE 1] else []) ++
      (if blue ≠ 0 then [write_int BLUE_BLINK_FILE 1] else []))
  else
    (0, disable ++
      [write_int RED_LED_FILE red, write_int GREEN_LED_FILE green, write_int BLUE_LED_FILE blue])

/-! ## Arbitration -/

/-- The file-scope state of `lights.c`: `g_notification`, `g_battery`, `g_attention`. -/
structure Globals where
  g_notification : light_state_t
  g_battery : light_state_t
  g_attention : Int
deriving DecidableEq, Repr

/-- The function `handle_speaker_battery_locked(dev)`: the calls of the render. -/
def handle_speaker_battery_locked (g : Globals) (dev : Bool) : List Call :=
  if is_lit g.g_battery ≠ 0 then
    (set_speaker_light_locked dev g.g_battery).2
  else
    (set_speaker_light_locked dev g.g_notification).2

/-- The function `set_light_notifications(dev, state)`: the new globals, the calls
issued and the return value. -/
def set_light_notifications (g : Globals) (dev : Bool) (state : light_state_t) :
    Globals × List Call × Int :=
  let g_notification : light_state_t := state
  -- If a brightness has been applied by the user
  let brightness : Nat := (g_notification.color &&& 0xFF000000) >>> 24
  let g_notification : light_state_t :=
    if brightness > 0 ∧ brightness < 0xFF then
      -- Retrieve each of the RGB colors
      let color : Nat := g_notification.color &&& 0x00FFFFFF
      let rgb0 : Nat := (color >>> 16) &&& 0xFF
      let rgb1 : Nat := (color >>> 8) &&& 0xFF
      let rgb2 : Nat := color &&& 0xFF
      -- Apply the brightness level
      let rgb0 : Nat := if rgb0 > 0 then uint32 (rgb0 * brightness) / 0xFF else rgb0
      let rgb1 : Nat := if rgb1 > 0 then uint32 (rgb1 * brightness) / 0xFF else rgb1
      let rgb2 : Nat := if rgb2 > 0 then uint32 (rgb2 * brightness) / 0xFF else rgb2
      -- Update with the new color
      { g_notification with
        color := uint32 (uint32 (uint32 (rgb0 <<< 16) + uint32 (rgb1 <<< 8)) + rgb2) }
    else g_notification
  let g1 : Globals := { g with g_notification := g_notification }
  (g1, handle_speaker_battery_locked g1 dev, 0)

/-- The function `set_light_battery(dev, state)`: the new globals, the calls issued
and the return value. -/
def set_light_battery (g : Globals) (dev : Bool) (state : light_state_t) :
    Globals × List Call × Int :=
  let g1 : Globals := { g with g_battery := state }
  (g1, handle_speaker_battery_locked g1 dev, 0)

/-! ## Observations on a trace -/

/-- The 8-bit red channel of a color, `(color >> 16) & 0xFF`. -/
def redOf (color : Nat) : Nat := (color >>> 16) &&& 0xFF

/-- The 8-bit green channel of a color, `(color >> 8) & 0xFF`. -/
def greenOf (color : Nat) : Nat := (color >>> 8) &&& 0xFF

/-- The 8-bit blue channel of a color, `color & 0xFF`. -/
def blueOf (color : Nat) : Nat := color &&& 0xFF

/-- The files that carry waveform parameters: duty table, start index, pauses and
ramp step of the three channels. -/
def isWaveformFile : SysfsFile → Bool
  | RED_DUTY_PCTS_FILE | GREEN_DUTY_PCTS_FILE | BLUE_DUTY_PCTS_FILE
  | RED_START_IDX_FILE | GREEN_START_IDX_FILE | BLUE_START_IDX_FILE
  | RED_PAUSE_LO_FILE | GREEN_PAUSE_LO_FILE | BLUE_PAUSE_LO_FILE
  | RED_PAUSE_HI_FILE | GREEN_PAUSE_HI_FILE | BLUE_PAUSE_HI_FILE
  | RED_RAMP_STEP_MS_FILE | GREEN_RAMP_STEP_MS_FILE | BLUE_RAMP_STEP_MS_FILE => true
  | _ => false

/-- The solid brightness files of the three channels. -/
def isBrightnessFile : SysfsFile → Bool
  | RED_LED_FILE | GREEN_LED_FILE | BLUE_LED_FILE => true
  | _ => false

/-- The blink-enable files of the three channels. -/
def isBlinkFile : SysfsFile → Bool
  | RED_BLINK_FILE | GREEN_BLINK_FILE | BLUE_BLINK_FILE => true
  | _ => false

/-- A call that writes a waveform parameter. -/
def Call.isWaveform (w : Call) : Bool := isWaveformFile w.file

/-- A call that writes a solid brightness. -/
def Call.isBrightness (w : Call) : Bool := isBrightnessFile w.file

/-- A call that enables blinking: value 1 written to a blink file. -/
def Call.isBlinkEnable : Call → Bool
  | write_int p v => isBlinkFile p && decide (v = 1)
  | write_str _ _ => false

/-- The render took the blink (waveform) path: some waveform parameter is written. -/
def tookBlinkPath (ws : List Call) : Bool := ws.any Call.isWaveform

/-- The render took the solid path: some solid brightness is written. -/
def tookSolidPath (ws : List Call) : Bool := ws.any Call.isBrightness

/-! ## The duty table as the specification words it -/

/-- The specification's RampTable: eight relative brightness levels. -/
def RampTable : List Nat := [0, 12, 25, 37, 50, 72, 85, 100]

/-- The specification's ScaleDutyTable: each RampTable entry times the channel
brightness, divided by 255 with truncation, in ramp order. -/
def ScaleDutyTable (channelBrightness : Nat) : List Nat :=
  RampTable.map (fun entry => entry * channelBrightness / 255)

/-- The text of a duty table: decimal numerals separated by single commas. -/
def dutyText (table : List Nat) : String :=
  ",".intercalate (table.map toString)


/-! ## Backlight and attention -/

/-- The function `rgb_to_brightness(state)`.  `color` is the masked value converted
to `int`; it is non-negative, so its shifts and masks are those of the natural
number it holds.  Products, sums and the returned value are `int`s. -/
def rgb_to_brightness (state : light_state_t) : Int :=
  let color : Int := int32 ((state.color &&& 0x00ffffff : Nat) : Int)
  let r : Int := (((color.toNat >>> 16) &&& 0x00ff : Nat) : Int)
  let g : Int := (((color.toNat >>> 8) &&& 0x00ff : Nat) : Int)
  let b : Int := ((color.toNat &&& 0x00ff : Nat) : Int)
  int32 (shr (int32 (int32 (int32 (77 * r) + int32 (150 * g)) + int32 (29 * b))) 8)

/-- The function `set_light_attention(dev, state)`: the new globals, the calls
issued and the return value. -/
def set_light_attention (g : Globals) (dev : Bool) (state : light_state_t) :
    Globals × List Call × Int :=
  let g1 : Globals :=
    if state.flashMode = LIGHT_FLASH_HARDWARE then
      { g with g_attention := state.flashOnMS }
    else if state.flashMode = LIGHT_FLASH_NONE then
      { g with g_attention := 0 }
    else g
  (g1, handle_speaker_battery_locked g1 dev, 0)

/-! ## Executing the writes -/

/-- What the system calls inside one `write_int` / `write_str` call do: `open` and
`write` both succeed, `open` fails with an `errno`, or `open` succeeds and `write`
returns -1 with an `errno`. -/
inductive Outcome where
  | ok
  | open_failed (errno : Int)
  | write_failed (errno : Int)
deriving DecidableEq, Repr

/-- A line logged by `ALOGE("write_int failed to open %s\n", path)`; both
`write_int` and `write_str` log this text. -/
inductive LogEntry where
  | failed_to_open (path : SysfsFile)
deriving DecidableEq, Repr

/-- The path a log line names. -/
def LogEntry.file : LogEntry → SysfsFile
  | LogEntry.failed_to_open p => p

/-- The text of a log line. -/
def LogEntry.text : LogEntry → String
  | LogEntry.failed_to_open p => "write_int failed to open " ++ p.path ++ "\n"

/-- The state the write functions run in: the outcome the system gives to the n-th
call (`oracle`), the calls made so far, the function-local statics
`already_warned` of `write_int` and of `write_str`, and the error log. -/
structure IOState where
  oracle : Nat → Outcome
  issued : List Call
  write_int_already_warned : Bool
  write_str_already_warned : Bool
  log : List LogEntry

/-- The body of `write_int(path, value)`: the new state and the return value. -/
def exec_write_int (io : IOState) (path : SysfsFile) (value : Int) : IOState × Int :=
  let io1 : IOState := { io with issued := io.issued ++ [write_int path value] }
  match io.oracle io.issued.length with
  | Outcome.ok => (io1, 0)
  | Outcome.write_failed errno => (io1, -errno)
  | Outcome.open_failed errno =>
    if io.write_int_already_warned = false then
      ({ io1 with log := io.log ++ [LogEntry.failed_to_open path],
                  write_int_already_warned := true }, -errno)
    else (io1, -errno)

/-- The body of `write_str(path, value)`: the new state and the return value. -/
def exec_write_str (io : IOState) (path : SysfsFile) (value : String) : IOState × Int :=
  let io1 : IOState := { io with issued := io.issued ++ [write_str path value] }
  match io.oracle io.issued.length with
  | Outcome.ok => (io1, 0)
  | Outcome.write_failed errno => (io1, -errno)
  | Outcome.open_failed errno =>
    if io.write_str_already_warned = false then
      ({ io1 with log := io.log ++ [LogEntry.failed_to_open path],
                  write_str_already_warned := true }, -errno)
    else (io1, -errno)

/-- One call of a trace, executed. -/
def exec_call (io : IOState) : Call → IOState × Int
  | write_int p v => exec_write_int io p v
  | write_str p v => exec_write_str io p v

/-- A trace executed call by call, each return value discarded, as in
`set_speaker_light_locked`. -/
def run_calls (io : IOState) : List Call → IOState
  | [] => io
  | c :: rest => run_calls (exec_call io c).1 rest

/-- The function `set_light_backlight(dev, state)`: `err` is the return value of the
one `write_int`. -/
def set_light_backlight (io : IOState) (_dev : Bool) (state : light_state_t) :
    IOState × Int :=
  let brightness : Int := rgb_to_brightness state
  exec_write_int io LCD_FILE brightness

/-- The entry point `set_light_notifications` with its writes executed. -/
def set_light_notifications_io (io : IOState) (g : Globals) (dev : Bool)
    (state : light_state_t) : IOState × Globals × Int :=
  let r := set_light_notifications g dev state
  (run_calls io r.2.1, r.1, r.2.2)

/-- The entry point `set_light_battery` with its writes executed. -/
def set_light_battery_io (io : IOState) (g : Globals) (dev : Bool)
    (state : light_state_t) : IOState × Globals × Int :=
  let r := set_light_battery g dev state
  (run_calls io r.2.1, r.1, r.2.2)

/-- The entry point `set_light_attention` with its writes executed. -/
def set_light_attention_io (io : IOState) (g : Globals) (dev : Bool)
    (state : light_state_t) : IOState × Globals × Int :=
  let r := set_light_attention g dev state
  (run_calls io r.2.1, r.1, r.2.2)

/-- A state in which every call succeeds. -/
def allOk (issued : List Call) : IOState :=
  IOState.mk (fun _ => Outcome.ok) issued false false []

/-- The override-brightness byte of a color, `(color & 0xFF000000) >> 24`. -/
def overrideOf (color : Nat) : Nat := (color &&& 0xFF000000) >>> 24

/-- The size in bytes of the buffer `get_scaled_duty_pcts` allocates,
`5 * RAMP_SIZE * sizeof(char)`. -/
def DUTY_BUF_SIZE : Nat := 5 * RAMP_SIZE * 1

/-! ## Machine-integer facts -/

theorem int32_of_range (x : Int) (hlo : -(2 ^ 31) ≤ x) (hhi : x < 2 ^ 31) : int32 x = x := by
  unfold int32
  omega

theorem size_t_of_range (x : Int) (hlo : 0 ≤ x) (hhi : x < 2 ^ 64) : size_t x = x := by
  unfold size_t
  omega

theorem and_0xFF_lt (x : Nat) : x &&& 0xFF < 256 :=
  Nat.lt_of_le_of_lt Nat.and_le_right (by decide)

theorem redOf_lt (c : Nat) : redOf c < 256 := and_0xFF_lt _

theorem greenOf_lt (c : Nat) : greenOf c < 256 := and_0xFF_lt _

theorem blueOf_lt (c : Nat) : blueOf c < 256 := and_0xFF_lt _

/-- The value `is_lit` returns is non-zero exactly when the low 24 bits are. -/
theorem is_lit_ne_zero_iff (s : light_state_t) :
    is_lit s ≠ 0 ↔ s.color &&& 0x00FFFFFF ≠ 0 := by
  have h : s.color &&& 0x00FFFFFF ≤ 0x00FFFFFF := Nat.and_le_right
  unfold is_lit
  rw [int32_of_range _ (by omega) (by omega)]
  omega

/-- Timing on the blink path, for an on-time that is a positive `int`. -/
theorem blink_timing_eq (onMS : Int) (hpos : 0 < onMS) (hhi : onMS < 2 ^ 31) :
    blink_timing onMS = if onMS < 800 then (onMS / 16, 0) else (50, onMS - 800) := by
  simp only [blink_timing, RAMP_STEP_DURATION, RAMP_SIZE, BRIGHTNESS_RAMP, List.length_cons,
    List.length_nil, size_t, int32]
  norm_num
  split_ifs <;> simp <;> omega

/-! ## Bytes of a color -/

theorem and_0xFF_eq_mod (x : Nat) : x &&& 0xFF = x % 256 :=
  Nat.and_pow_two_sub_one_eq_mod x 8

theorem and_0xFFFFFF_eq_mod (x : Nat) : x &&& 0x00FFFFFF = x % 16777216 :=
  Nat.and_pow_two_sub_one_eq_mod x 24

theorem redOf_eq (c : Nat) : redOf c = c / 65536 % 256 := by
  unfold redOf
  rw [and_0xFF_eq_mod, Nat.shiftRight_eq_div_pow]

theorem greenOf_eq (c : Nat) : greenOf c = c / 256 % 256 := by
  unfold greenOf
  rw [and_0xFF_eq_mod, Nat.shiftRight_eq_div_pow]

theorem blueOf_eq (c : Nat) : blueOf c = c % 256 := and_0xFF_eq_mod c

/-- The override byte as `set_light_notifications` extracts it. -/
theorem override_byte_eq (c : Nat) : (c &&& 0xFF000000) >>> 24 = c / 16777216 % 256 := by
  have h : (c &&& 0xFF000000) >>> 24 = (c >>> 24) &&& 0xFF := by
    apply Nat.eq_of_testBit_eq
    intro i
    have hk : Nat.testBit 0xFF000000 (24 + i) = Nat.testBit 0xFF i := by
      have hs : (0xFF000000 : Nat) = 0xFF <<< 24 := by decide
      rw [hs, Nat.testBit_shiftLeft]
      simp
    simp [Nat.testBit_shiftRight, hk]
  rw [h, and_0xFF_eq_mod, Nat.shiftRight_eq_div_pow]

/-- Three bytes packed as `(r << 16) + (g << 8) + b` are read back unchanged. -/
theorem channels_of_packed (r g b : Nat) (hr : r < 256) (hg : g < 256) (hb : b < 256) :
    redOf (uint32 (uint32 (uint32 (r <<< 16) + uint32 (g <<< 8)) + b)) = r ∧
    greenOf (uint32 (uint32 (uint32 (r <<< 16) + uint32 (g <<< 8)) + b)) = g ∧
    blueOf (uint32 (uint32 (uint32 (r <<< 16) + uint32 (g <<< 8)) + b)) = b := by
  simp only [redOf_eq, greenOf_eq, blueOf_eq, uint32, Nat.shiftLeft_eq]
  omega

/-- A channel scaled by an override brightness below 255 stays a byte, and the
unsigned product does not wrap. -/
theorem scaled_channel (c b : Nat) (hc : c < 256) (hb : b < 255) :
    uint32 (c * b) / 0xFF = c * b / 255 ∧ c * b / 255 < 256 := by
  have h1 : c * b ≤ 255 * 254 := Nat.mul_le_mul (by omega) (by omega)
  generalize c * b = p at h1
  unfold uint32
  omega

/-! ## Text of the duty table -/

/-- A byte brightness times a ramp entry does not overflow an `int`, and the
truncating quotient by 255 is the quotient of the natural numbers. -/
theorem scaled_entry (e b : Nat) (he : e ≤ 100) (hb : b ≤ 255) :
    (int32 ((e : Int) * (b : Int))).tdiv 255 = ((e * b / 255 : Nat) : Int) ∧
      e * b / 255 ≤ 100 := by
  have h1 : e * b ≤ 100 * 255 := Nat.mul_le_mul he hb
  have h2 : ((e : Int) * (b : Int)) = ((e * b : Nat) : Int) := by push_cast; rfl
  rw [h2]
  generalize e * b = p at h1
  rw [int32_of_range _ (by omega) (by omega)]
  refine ⟨?_, by omega⟩
  rw [Int.tdiv_eq_ediv (by omega) (by decide)]
  norm_cast

/-- A piece of at most four characters is not cut by the five-byte temporary. -/
theorem snprintf_sd_fits (pad : String) (n : Nat) (hp : pad.length ≤ 1) (hn : n ≤ 100) :
    snprintf_sd 5 pad (n : Int) = pad ++ toString n := by
  have hl : (toString n).data.length ≤ 3 := Nat.repr_length n 3 (by decide) (by omega)
  have hd : pad.data.length ≤ 1 := hp
  have ht : toString (n : Int) = toString n := rfl
  unfold snprintf_sd
  rw [ht, List.take_of_length_le]
  · rfl
  · rw [List.length_append]
    omega

/-- The text built by `get_scaled_duty_pcts` for a byte brightness. -/
theorem get_scaled_duty_pcts_eq (b : Nat) (hb : b ≤ 255) :
    get_scaled_duty_pcts (b : Int) = dutyText (ScaleDutyTable b) := by
  have h : ∀ (e : Nat) (pad : String), e ≤ 100 → pad.length ≤ 1 →
      snprintf_sd 5 pad ((int32 ((e : Int) * (b : Int))).tdiv 255)
        = pad ++ toString (e * b / 255) := by
    intro e pad he hp
    obtain ⟨h1, h2⟩ := scaled_entry e b he hb
    rw [h1, snprintf_sd_fits pad _ hp h2]
  have h0 := h 0 "" (by decide) (by decide)
  have h12 := h 12 "," (by decide) (by decide)
  have h25 := h 25 "," (by decide) (by decide)
  have h37 := h 37 "," (by decide) (by decide)
  have h50 := h 50 "," (by decide) (by decide)
  have h72 := h 72 "," (by decide) (by decide)
  have h85 := h 85 "," (by decide) (by decide)
  have h100 := h 100 "," (by decide) (by decide)
  simp only [Nat.cast_ofNat, Nat.cast_zero] at h0 h12 h25 h37 h50 h72 h85 h100
  simp only [get_scaled_duty_pcts, get_scaled_duty_pcts_loop, BRIGHTNESS_RAMP, dutyText,
    ScaleDutyTable, RampTable, List.map, String.intercalate, String.intercalate.go,
    h0, h12, h25, h37, h50, h72, h85, h100, String.append_assoc, String.empty_append]

/-! ## The two shapes of a render -/

/-- The state takes the blink branch: TIMED with both durations positive. -/
theorem set_speaker_light_locked_blink (s : light_state_t)
    (hm : s.flashMode = LIGHT_FLASH_TIMED) (hon : 0 < s.flashOnMS) (hoff : 0 < s.flashOffMS) :
    set_speaker_light_locked true s =
      (0, [write_int RED_BLINK_FILE 0, write_int GREEN_BLINK_FILE 0, write_int BLUE_BLINK_FILE 0,
        write_int RED_START_IDX_FILE 0,
        write_str RED_DUTY_PCTS_FILE (get_scaled_duty_pcts (redOf s.color)),
        write_int RED_PAUSE_LO_FILE s.flashOffMS,
        write_int RED_PAUSE_HI_FILE (blink_timing s.flashOnMS).2,
        write_int RED_RAMP_STEP_MS_FILE (blink_timing s.flashOnMS).1,
        write_int GREEN_START_IDX_FILE 8,
        write_str GREEN_DUTY_PCTS_FILE (get_scaled_duty_pcts (greenOf s.color)),
        write_int GREEN_PAUSE_LO_FILE s.flashOffMS,
        write_int GREEN_PAUSE_HI_FILE (blink_timing s.flashOnMS).2,
        write_int GREEN_RAMP_STEP_MS_FILE (blink_timing s.flashOnMS).1,
        write_int BLUE_START_IDX_FILE 16,
        write_str BLUE_DUTY_PCTS_FILE (get_scaled_duty_pcts (blueOf s.color)),
        write_int BLUE_PAUSE_LO_FILE s.flashOffMS,
        write_int BLUE_PAUSE_HI_FILE (blink_timing s.flashOnMS).2,
        write_int BLUE_RAMP_STEP_MS_FILE (blink_timing s.flashOnMS).1] ++
        (if redOf s.color = 0 then [] else [write_int RED_BLINK_FILE 1]) ++
        (if greenOf s.color = 0 then [] else [write_int GREEN_BLINK_FILE 1]) ++
        (if blueOf s.color = 0 then [] else [write_int BLUE_BLINK_FILE 1])) := by
  have h8 : int32 ((RAMP_SIZE : Nat) : Int) = 8 := by decide
  have h16 : int32 (size_t (((RAMP_SIZE : Nat) : Int) * 2)) = 16 := by decide
  simp only [set_speaker_light_locked, hm, hon, hoff, h8, h16, redOf, greenOf, blueOf]
  simp
  exact ⟨hon, hoff⟩

/-- The state takes the solid branch: not TIMED, or a duration that is not positive. -/
theorem set_speaker_light_locked_solid (s : light_state_t)
    (h : ¬ (s.flashMode = LIGHT_FLASH_TIMED ∧ 0 < s.flashOnMS ∧ 0 < s.flashOffMS)) :
    set_speaker_light_locked true s =
      (0, [write_int RED_BLINK_FILE 0, write_int GREEN_BLINK_FILE 0, write_int BLUE_BLINK_FILE 0,
        write_int RED_LED_FILE (redOf s.color), write_int GREEN_LED_FILE (greenOf s.color),
        write_int BLUE_LED_FILE (blueOf s.color)]) := by
  by_cases hm : s.flashMode = LIGHT_FLASH_TIMED
  · have h2 : ¬ (0 < s.flashOnMS ∧ 0 < s.flashOffMS) := fun h3 => h ⟨hm, h3⟩
    simp only [set_speaker_light_locked, hm, redOf, greenOf, blueOf]
    simp
    omega
  · simp [set_speaker_light_locked, hm, redOf, greenOf, blueOf]

/-! ## Claims -/

/-- C1. Battery preempts notification: the calls of a render are those of
`set_speaker_light_locked` on the battery state when the low 24 bits of the battery
color are non-zero, and those on the notification state otherwise; a battery color
of `0xFF000000` (only the top byte set) counts as unlit. -/
theorem battery_preempts_notification (g : Globals) (dev : Bool) :
    handle_speaker_battery_locked g dev =
        (set_speaker_light_locked dev
          (if g.g_battery.color &&& 0x00FFFFFF ≠ 0 then g.g_battery else g.g_notification)).2
      ∧ ∀ mode onMS offMS : Int,
          handle_speaker_battery_locked
              { g with g_battery := light_state_t.mk 0xFF000000 mode onMS offMS } dev =
            (set_speaker_light_locked dev g.g_notification).2 := by
  refine ⟨?_, ?_⟩
  · unfold handle_speaker_battery_locked
    by_cases h : g.g_battery.color &&& 0x00FFFFFF ≠ 0
    · rw [if_pos ((is_lit_ne_zero_iff _).2 h), if_pos h]
    · rw [if_neg (fun h2 => h ((is_lit_ne_zero_iff _).1 h2)), if_neg h]
  · intro mode onMS offMS
    unfold handle_speaker_battery_locked
    have hz : (0xFF000000 : Nat) &&& 0x00FFFFFF = 0 := by decide
    rw [if_neg]
    exact fun h2 => (is_lit_ne_zero_iff _).1 h2 hz

/-- C2. Blink timing: for a TIMED state with positive on and off times (the on-time
an `int`), each channel gets exactly one ramp-step write and one pause-high write;
when `800 > flashOnMS` the ramp step is `flashOnMS / 16` and pause-high is 0,
otherwise the ramp step is 50 and pause-high is `flashOnMS - 800`. -/
theorem blink_timing_written (s : light_state_t)
    (hm : s.flashMode = LIGHT_FLASH_TIMED) (hon : 0 < s.flashOnMS) (hoff : 0 < s.flashOffMS)
    (hhi : s.flashOnMS < 2 ^ 31) :
    let ws := (set_speaker_light_locked true s).2
    let step : Int := if 800 > s.flashOnMS then s.flashOnMS / 16 else 50
    let pauseHi : Int := if 800 > s.flashOnMS then 0 else s.flashOnMS - 800
    callsTo RED_RAMP_STEP_MS_FILE ws = [write_int RED_RAMP_STEP_MS_FILE step] ∧
    callsTo GREEN_RAMP_STEP_MS_FILE ws = [write_int GREEN_RAMP_STEP_MS_FILE step] ∧
    callsTo BLUE_RAMP_STEP_MS_FILE ws = [write_int BLUE_RAMP_STEP_MS_FILE step] ∧
    callsTo RED_PAUSE_HI_FILE ws = [write_int RED_PAUSE_HI_FILE pauseHi] ∧
    callsTo GREEN_PAUSE_HI_FILE ws = [write_int GREEN_PAUSE_HI_FILE pauseHi] ∧
    callsTo BLUE_PAUSE_HI_FILE ws = [write_int BLUE_PAUSE_HI_FILE pauseHi] := by
  intro ws step pauseHi
  have hws : ws = _ := congrArg Prod.snd (set_speaker_light_locked_blink s hm hon hoff)
  have ht := blink_timing_eq s.flashOnMS hon hhi
  have h1 : (blink_timing s.flashOnMS).1 = step := by
    rw [ht]; simp only [step]; split_ifs <;> rfl
  have h2 : (blink_timing s.flashOnMS).2 = pauseHi := by
    rw [ht]; simp only [pauseHi]; split_ifs <;> rfl
  rw [hws, h1, h2]
  refine ⟨?_, ?_, ?_, ?_, ?_, ?_⟩ <;>
    simp [callsTo, Call.file, List.filter_cons, apply_ite (List.filter _)]

/-- C2 at `flashOnMS = 100` (ramp step 6, pause-high 0) and at `flashOnMS = 800`
(ramp step 50, pause-high 0). -/
theorem blink_timing_written_witness :
    (callsTo RED_RAMP_STEP_MS_FILE
        (set_speaker_light_locked true (light_state_t.mk 0xFF0000 LIGHT_FLASH_TIMED 100 200)).2
        = [write_int RED_RAMP_STEP_MS_FILE 6] ∧
      callsTo RED_PAUSE_HI_FILE
        (set_speaker_light_locked true (light_state_t.mk 0xFF0000 LIGHT_FLASH_TIMED 100 200)).2
        = [write_int RED_PAUSE_HI_FILE 0]) ∧
    (callsTo RED_RAMP_STEP_MS_FILE
        (set_speaker_light_locked true (light_state_t.mk 0xFF0000 LIGHT_FLASH_TIMED 800 200)).2
        = [write_int RED_RAMP_STEP_MS_FILE 50] ∧
      callsTo RED_PAUSE_HI_FILE
        (set_speaker_light_locked true (light_state_t.mk 0xFF0000 LIGHT_FLASH_TIMED 800 200)).2
        = [write_int RED_PAUSE_HI_FILE 0]) :=
  have h := blink_timing_written (light_state_t.mk 0xFF0000 LIGHT_FLASH_TIMED 100 200)
    rfl (by decide) (by decide) (by decide)
  have k := blink_timing_written (light_state_t.mk 0xFF0000 LIGHT_FLASH_TIMED 800 200)
    rfl (by decide) (by decide) (by decide)
  ⟨⟨h.1, h.2.2.2.1⟩, ⟨k.1, k.2.2.2.1⟩⟩

/-- C3. Notification brightness rescale: with override byte `b = color >> 24` of a
32-bit color, if `0 < b < 255` every stored channel is `c * b / 255` of the input
channel `c`; if `b` is 0 or 0xFF the stored channels are the input channels; the
flash mode and both flash times are stored unchanged in either case. -/
theorem notification_brightness_rescale (g : Globals) (dev : Bool) (state : light_state_t)
    (hc : state.color < 2 ^ 32) :
    let b := state.color >>> 24
    let stored := (set_light_notifications g dev state).1.g_notification
    ((0 < b ∧ b < 255) →
      redOf stored.color = redOf state.color * b / 255 ∧
      greenOf stored.color = greenOf state.color * b / 255 ∧
      blueOf stored.color = blueOf state.color * b / 255) ∧
    ((b = 0 ∨ b = 255) →
      redOf stored.color = redOf state.color ∧
      greenOf stored.color = greenOf state.color ∧
      blueOf stored.color = blueOf state.color) ∧
    stored.flashMode = state.flashMode ∧
    stored.flashOnMS = state.flashOnMS ∧
    stored.flashOffMS = state.flashOffMS := by
  intro b stored
  have hb : (state.color &&& 0xFF000000) >>> 24 = b := by
    rw [override_byte_eq]
    simp only [b, Nat.shiftRight_eq_div_pow]
    omega
  have hr : redOf (state.color &&& 0x00FFFFFF) = redOf state.color := by
    simp only [redOf_eq, and_0xFFFFFF_eq_mod]; omega
  have hg : greenOf (state.color &&& 0x00FFFFFF) = greenOf state.color := by
    simp only [greenOf_eq, and_0xFFFFFF_eq_mod]; omega
  have hbl : blueOf (state.color &&& 0x00FFFFFF) = blueOf state.color := by
    simp only [blueOf_eq, and_0xFFFFFF_eq_mod]; omega
  have hstored : stored =
      if b > 0 ∧ b < 0xFF then
        light_state_t.mk
            (uint32 (uint32 (uint32
              ((if redOf state.color > 0 then uint32 (redOf state.color * b) / 0xFF
                else redOf state.color) <<< 16) +
              uint32 ((if greenOf state.color > 0 then uint32 (greenOf state.color * b) / 0xFF
                else greenOf state.color) <<< 8)) +
              (if blueOf state.color > 0 then uint32 (blueOf state.color * b) / 0xFF
                else blueOf state.color)))
            state.flashMode state.flashOnMS state.flashOffMS
      else state := by
    simp only [stored, set_light_notifications, hb, ← hr, ← hg, ← hbl]
    rfl
  have hscale : ∀ c : Nat, c < 256 → b < 255 →
      (if c > 0 then uint32 (c * b) / 0xFF else c) = c * b / 255 ∧ c * b / 255 < 256 := by
    intro c hc1 hb1
    have h := scaled_channel c b hc1 hb1
    by_cases h0 : c > 0
    · rw [if_pos h0]; exact h
    · have hz : c = 0 := by omega
      subst hz
      simp
  refine ⟨?_, ?_, ?_, ?_, ?_⟩
  · rintro ⟨hb0, hb1⟩
    rw [hstored, if_pos ⟨hb0, hb1⟩]
    obtain ⟨er, lr⟩ := hscale _ (redOf_lt state.color) hb1
    obtain ⟨eg, lg⟩ := hscale _ (greenOf_lt state.color) hb1
    obtain ⟨eb, lb⟩ := hscale _ (blueOf_lt state.color) hb1
    simp only [er, eg, eb]
    exact channels_of_packed _ _ _ lr lg lb
  · intro h
    have hn : ¬ (b > 0 ∧ b < 0xFF) := by omega
    rw [hstored, if_neg hn]
    exact ⟨rfl, rfl, rfl⟩
  · rw [hstored]; split_ifs <;> rfl
  · rw [hstored]; split_ifs <;> rfl
  · rw [hstored]; split_ifs <;> rfl

/-- C3 at color `0x80FF0000`: the stored red channel is 128. -/
theorem notification_brightness_rescale_witness :
    redOf (set_light_notifications
        (Globals.mk (light_state_t.mk 0 0 0 0) (light_state_t.mk 0 0 0 0) 0) true
        (light_state_t.mk 0x80FF0000 LIGHT_FLASH_NONE 0 0)).1.g_notification.color = 128 :=
  ((notification_brightness_rescale
      (Globals.mk (light_state_t.mk 0 0 0 0) (light_state_t.mk 0 0 0 0) 0) true
      (light_state_t.mk 0x80FF0000 LIGHT_FLASH_NONE 0 0) (by decide)).1
    ⟨by decide, by decide⟩).1

/-- C4. `set_light_battery` stores its argument verbatim in the battery slot (the
color with its override byte, the flash mode and both flash times, with no
rescaling) and leaves the notification slot and the attention value unchanged. -/
theorem set_light_battery_stores_verbatim (g : Globals) (dev : Bool) (s : light_state_t) :
    (set_light_battery g dev s).1.g_battery = s ∧
    (set_light_battery g dev s).1.g_battery.color = s.color ∧
    (set_light_battery g dev s).1.g_battery.flashMode = s.flashMode ∧
    (set_light_battery g dev s).1.g_battery.flashOnMS = s.flashOnMS ∧
    (set_light_battery g dev s).1.g_battery.flashOffMS = s.flashOffMS ∧
    (set_light_battery g dev s).1.g_notification = g.g_notification ∧
    (set_light_battery g dev s).1.g_attention = g.g_attention :=
  ⟨rfl, rfl, rfl, rfl, rfl, rfl, rfl⟩

/-- C5 fails as stated: a state with flash mode NONE (and one with flash mode
HARDWARE) and both flash times positive is rendered on the solid path. -/
theorem blink_selection_ignores_mode_counterexample :
    ¬ (tookBlinkPath
          (set_speaker_light_locked true (light_state_t.mk 0xFF0000 LIGHT_FLASH_NONE 500 500)).2
          = true ↔
        (0 : Int) < 500 ∧ (0 : Int) < 500) ∧
    ¬ (tookBlinkPath
          (set_speaker_light_locked true
            (light_state_t.mk 0xFF0000 LIGHT_FLASH_HARDWARE 500 500)).2 = true ↔
        (0 : Int) < 500 ∧ (0 : Int) < 500) := by
  decide

/-- C5, amended. The blink (waveform) path is taken exactly when the flash mode is
TIMED and both flash times are positive, and the solid path exactly otherwise: a
TIMED state with both times positive gets the 15 waveform writes and no solid
brightness write, every other state gets the 3 brightness writes and no waveform
write. -/
theorem blink_selection (s : light_state_t) :
    (tookBlinkPath (set_speaker_light_locked true s).2 = true ↔
      (s.flashMode = LIGHT_FLASH_TIMED ∧ 0 < s.flashOnMS ∧ 0 < s.flashOffMS)) ∧
    (tookSolidPath (set_speaker_light_locked true s).2 = true ↔
      ¬ (s.flashMode = LIGHT_FLASH_TIMED ∧ 0 < s.flashOnMS ∧ 0 < s.flashOffMS)) ∧
    ((set_speaker_light_locked true s).2.filter Call.isWaveform).length =
      (if s.flashMode = LIGHT_FLASH_TIMED ∧ 0 < s.flashOnMS ∧ 0 < s.flashOffMS
        then 15 else 0) ∧
    ((set_speaker_light_locked true s).2.filter Call.isBrightness).length =
      (if s.flashMode = LIGHT_FLASH_TIMED ∧ 0 < s.flashOnMS ∧ 0 < s.flashOffMS
        then 0 else 3) := by
  by_cases h : s.flashMode = LIGHT_FLASH_TIMED ∧ 0 < s.flashOnMS ∧ 0 < s.flashOffMS
  · rw [set_speaker_light_locked_blink s h.1 h.2.1 h.2.2]
    by_cases hr : redOf s.color = 0 <;> by_cases hg : greenOf s.color = 0 <;>
      by_cases hb : blueOf s.color = 0 <;>
      simp [tookBlinkPath, tookSolidPath, Call.isWaveform, Call.isBrightness, Call.file,
        isWaveformFile, isBrightnessFile, h, hr, hg, hb]
  · rw [set_speaker_light_locked_solid s h]
    simp [tookBlinkPath, tookSolidPath, Call.isWaveform, Call.isBrightness, Call.file,
      isWaveformFile, isBrightnessFile, h]

/-- C6. Solid path: when `flashOnMS = 0` or `flashOffMS = 0`, for every flash mode,
the render is exactly the three blink-disable writes followed by the red, green and
blue brightness writes with `(color >> 16) & 0xFF`, `(color >> 8) & 0xFF` and
`color & 0xFF`; no waveform parameter and no blink-enable is written. -/
theorem solid_path (s : light_state_t) (h : s.flashOnMS = 0 ∨ s.flashOffMS = 0) :
    (set_speaker_light_locked true s).2 =
      [write_int RED_BLINK_FILE 0, write_int GREEN_BLINK_FILE 0, write_int BLUE_BLINK_FILE 0,
        write_int RED_LED_FILE (((s.color >>> 16) &&& 0xFF : Nat) : Int),
        write_int GREEN_LED_FILE (((s.color >>> 8) &&& 0xFF : Nat) : Int),
        write_int BLUE_LED_FILE ((s.color &&& 0xFF : Nat) : Int)] ∧
    (∀ w ∈ (set_speaker_light_locked true s).2,
      w.isWaveform = false ∧ w.isBlinkEnable = false) := by
  have hn : ¬ (s.flashMode = LIGHT_FLASH_TIMED ∧ 0 < s.flashOnMS ∧ 0 < s.flashOffMS) := by
    omega
  rw [set_speaker_light_locked_solid s hn]
  refine ⟨rfl, ?_⟩
  simp [Call.isWaveform, Call.isBlinkEnable, Call.file, isWaveformFile, isBlinkFile]

/-- C6 at a TIMED state with `flashOnMS = 0`. -/
theorem solid_path_witness :
    (set_speaker_light_locked true (light_state_t.mk 0x102030 LIGHT_FLASH_TIMED 0 500)).2 =
      [write_int RED_BLINK_FILE 0, write_int GREEN_BLINK_FILE 0, write_int BLUE_BLINK_FILE 0,
        write_int RED_LED_FILE 0x10, write_int GREEN_LED_FILE 0x20,
        write_int BLUE_LED_FILE 0x30] :=
  (solid_path (light_state_t.mk 0x102030 LIGHT_FLASH_TIMED 0 500) (Or.inl rfl)).1

/-- C7. Per-channel waveform parameters on the blink path: the start index is 0 for
red, 8 for green and 16 for blue; each channel's duty table is
`get_scaled_duty_pcts` of that channel's own byte; pause-low is `flashOffMS` for
every channel; pause-high and ramp step are the same for the three channels. -/
theorem waveform_parameters (s : light_state_t)
    (hm : s.flashMode = LIGHT_FLASH_TIMED) (hon : 0 < s.flashOnMS) (hoff : 0 < s.flashOffMS) :
    let ws := (set_speaker_light_locked true s).2
    (callsTo RED_START_IDX_FILE ws = [write_int RED_START_IDX_FILE 0] ∧
      callsTo GREEN_START_IDX_FILE ws = [write_int GREEN_START_IDX_FILE (RAMP_SIZE : Nat)] ∧
      callsTo BLUE_START_IDX_FILE ws = [write_int BLUE_START_IDX_FILE (2 * RAMP_SIZE : Nat)] ∧
      RAMP_SIZE = 8) ∧
    (callsTo RED_DUTY_PCTS_FILE ws =
        [write_str RED_DUTY_PCTS_FILE (get_scaled_duty_pcts (redOf s.color))] ∧
      callsTo GREEN_DUTY_PCTS_FILE ws =
        [write_str GREEN_DUTY_PCTS_FILE (get_scaled_duty_pcts (greenOf s.color))] ∧
      callsTo BLUE_DUTY_PCTS_FILE ws =
        [write_str BLUE_DUTY_PCTS_FILE (get_scaled_duty_pcts (blueOf s.color))]) ∧
    (callsTo RED_PAUSE_LO_FILE ws = [write_int RED_PAUSE_LO_FILE s.flashOffMS] ∧
      callsTo GREEN_PAUSE_LO_FILE ws = [write_int GREEN_PAUSE_LO_FILE s.flashOffMS] ∧
      callsTo BLUE_PAUSE_LO_FILE ws = [write_int BLUE_PAUSE_LO_FILE s.flashOffMS]) ∧
    (∃ pauseHi stepDuration : Int,
      callsTo RED_PAUSE_HI_FILE ws = [write_int RED_PAUSE_HI_FILE pauseHi] ∧
      callsTo GREEN_PAUSE_HI_FILE ws = [write_int GREEN_PAUSE_HI_FILE pauseHi] ∧
      callsTo BLUE_PAUSE_HI_FILE ws = [write_int BLUE_PAUSE_HI_FILE pauseHi] ∧
      callsTo RED_RAMP_STEP_MS_FILE ws = [write_int RED_RAMP_STEP_MS_FILE stepDuration] ∧
      callsTo GREEN_RAMP_STEP_MS_FILE ws = [write_int GREEN_RAMP_STEP_MS_FILE stepDuration] ∧
      callsTo BLUE_RAMP_STEP_MS_FILE ws = [write_int BLUE_RAMP_STEP_MS_FILE stepDuration]) := by
  intro ws
  have hws : ws = _ := congrArg Prod.snd (set_speaker_light_locked_blink s hm hon hoff)
  rw [hws]
  refine ⟨⟨?_, ?_, ?_, rfl⟩, ⟨?_, ?_, ?_⟩, ⟨?_, ?_, ?_⟩,
    ⟨(blink_timing s.flashOnMS).2, (blink_timing s.flashOnMS).1, ?_, ?_, ?_, ?_, ?_, ?_⟩⟩ <;>
    simp [callsTo, Call.file, List.filter_cons, apply_ite (List.filter _), RAMP_SIZE,
      BRIGHTNESS_RAMP]

/-- C7 at a TIMED state with color `0xFF8000`, on-time 100 and off-time 200. -/
theorem waveform_parameters_witness :
    callsTo GREEN_START_IDX_FILE
        (set_speaker_light_locked true (light_state_t.mk 0xFF8000 LIGHT_FLASH_TIMED 100 200)).2
        = [write_int GREEN_START_IDX_FILE 8] ∧
    callsTo GREEN_DUTY_PCTS_FILE
        (set_speaker_light_locked true (light_state_t.mk 0xFF8000 LIGHT_FLASH_TIMED 100 200)).2
        = [write_str GREEN_DUTY_PCTS_FILE "0,6,12,18,25,36,42,50"] ∧
    callsTo GREEN_PAUSE_LO_FILE
        (set_speaker_light_locked true (light_state_t.mk 0xFF8000 LIGHT_FLASH_TIMED 100 200)).2
        = [write_int GREEN_PAUSE_LO_FILE 200] :=
  have h := waveform_parameters (light_state_t.mk 0xFF8000 LIGHT_FLASH_TIMED 100 200)
    rfl (by decide) (by decide)
  ⟨h.1.2.1, h.2.1.2.1, h.2.2.1.2.1⟩

/-- C8. Disable-first: on the blink path and on the solid path alike, the render
begins with a write of 0 to the red, then the green, then the blue blink file;
every other write of the render follows these three. -/
theorem disable_first (s : light_state_t) :
    ∃ rest : List Call,
      (set_speaker_light_locked true s).2 =
        [write_int RED_BLINK_FILE 0, write_int GREEN_BLINK_FILE 0, write_int BLUE_BLINK_FILE 0]
          ++ rest ∧
      List.take 3 (set_speaker_light_locked true s).2 =
        [write_int RED_BLINK_FILE 0, write_int GREEN_BLINK_FILE 0, write_int BLUE_BLINK_FILE 0] ∧
      rest ≠ [] := by
  by_cases h : s.flashMode = LIGHT_FLASH_TIMED ∧ 0 < s.flashOnMS ∧ 0 < s.flashOffMS
  · rw [set_speaker_light_locked_blink s h.1 h.2.1 h.2.2]
    exact ⟨_, rfl, rfl, by simp⟩
  · rw [set_speaker_light_locked_solid s h]
    exact ⟨_, rfl, rfl, by simp⟩

/-- C9. Re-enable only lit channels: on the blink path a write of 1 to a channel's
blink file occurs exactly when that channel's byte is non-zero; the first 18 writes
hold all 15 waveform writes and no blink-enable, and every later write is a
blink-enable; the writes to the blink file of a zero channel are the single 0. -/
theorem reenable_only_lit_channels (s : light_state_t)
    (hm : s.flashMode = LIGHT_FLASH_TIMED) (hon : 0 < s.flashOnMS) (hoff : 0 < s.flashOffMS) :
    let ws := (set_speaker_light_locked true s).2
    ((write_int RED_BLINK_FILE 1 ∈ ws ↔ redOf s.color ≠ 0) ∧
      (write_int GREEN_BLINK_FILE 1 ∈ ws ↔ greenOf s.color ≠ 0) ∧
      (write_int BLUE_BLINK_FILE 1 ∈ ws ↔ blueOf s.color ≠ 0)) ∧
    ((∀ w ∈ ws.take 18, w.isBlinkEnable = false) ∧
      ((ws.take 18).filter Call.isWaveform).length = 15 ∧
      (∀ w ∈ ws.drop 18, w.isBlinkEnable = true ∧ w.isWaveform = false)) ∧
    (callsTo RED_BLINK_FILE ws =
        (if redOf s.color = 0 then [write_int RED_BLINK_FILE 0]
          else [write_int RED_BLINK_FILE 0, write_int RED_BLINK_FILE 1]) ∧
      callsTo GREEN_BLINK_FILE ws =
        (if greenOf s.color = 0 then [write_int GREEN_BLINK_FILE 0]
          else [write_int GREEN_BLINK_FILE 0, write_int GREEN_BLINK_FILE 1]) ∧
      callsTo BLUE_BLINK_FILE ws =
        (if blueOf s.color = 0 then [write_int BLUE_BLINK_FILE 0]
          else [write_int BLUE_BLINK_FILE 0, write_int BLUE_BLINK_FILE 1])) := by
  intro ws
  have hws : ws = _ := congrArg Prod.snd (set_speaker_light_locked_blink s hm hon hoff)
  rw [hws]
  by_cases hr : redOf s.color = 0 <;> by_cases hg : greenOf s.color = 0 <;>
    by_cases hb : blueOf s.color = 0 <;>
    simp [callsTo, Call.file, List.filter_cons, Call.isWaveform, Call.isBlinkEnable,
      isWaveformFile, isBlinkFile, hr, hg, hb]

/-- C9 at a TIMED state with color `0xFF0000` (green and blue zero). -/
theorem reenable_only_lit_channels_witness :
    callsTo RED_BLINK_FILE
        (set_speaker_light_locked true (light_state_t.mk 0xFF0000 LIGHT_FLASH_TIMED 100 200)).2
        = [write_int RED_BLINK_FILE 0, write_int RED_BLINK_FILE 1] ∧
    callsTo GREEN_BLINK_FILE
        (set_speaker_light_locked true (light_state_t.mk 0xFF0000 LIGHT_FLASH_TIMED 100 200)).2
        = [write_int GREEN_BLINK_FILE 0] :=
  have h := reenable_only_lit_channels (light_state_t.mk 0xFF0000 LIGHT_FLASH_TIMED 100 200)
    rfl (by decide) (by decide)
  ⟨h.2.2.1, h.2.2.2.1⟩

/-- C10. ScaleDutyTable: for a brightness `b` in [0,255] the text built by
`get_scaled_duty_pcts` is the comma-separated text of a table of exactly 8 entries
whose i-th entry is `RampTable[i] * b / 255` (truncating), with RampTable =
{0,12,25,37,50,72,85,100}; for 255 the table is the RampTable, for 0 all zeros. -/
theorem scale_duty_table (b : Nat) (hb : b ≤ 255) :
    get_scaled_duty_pcts (b : Int) = dutyText (ScaleDutyTable b) ∧
    (ScaleDutyTable b).length = 8 ∧
    (∀ i : Fin 8, (ScaleDutyTable b)[i.val]? =
      some ([0, 12, 25, 37, 50, 72, 85, 100].getD i.val 0 * b / 255)) ∧
    BRIGHTNESS_RAMP = RampTable.map Int.ofNat ∧
    ScaleDutyTable 255 = [0, 12, 25, 37, 50, 72, 85, 100] ∧
    ScaleDutyTable 0 = [0, 0, 0, 0, 0, 0, 0, 0] ∧
    get_scaled_duty_pcts 255 = "0,12,25,37,50,72,85,100" ∧
    get_scaled_duty_pcts 0 = "0,0,0,0,0,0,0,0" := by
  refine ⟨get_scaled_duty_pcts_eq b hb, rfl, ?_, rfl, by decide, by decide, by decide,
    by decide⟩
  intro i
  fin_cases i <;> rfl

/-- C10 at brightness 128. -/
theorem scale_duty_table_witness :
    get_scaled_duty_pcts 128 = "0,6,12,18,25,36,42,50" :=
  (scale_duty_table 128 (by decide)).1.trans (by decide)

/-! ## Backlight brightness -/

/-- The value of `rgb_to_brightness` in terms of the three channel bytes. -/
theorem rgb_to_brightness_eq (s : light_state_t) :
    rgb_to_brightness s =
      (((77 * redOf s.color + 150 * greenOf s.color + 29 * blueOf s.color) / 256 : Nat) : Int) := by
  have hm : s.color &&& 0x00ffffff ≤ 0x00ffffff := Nat.and_le_right
  have hr : redOf (s.color &&& 0x00ffffff) = redOf s.color := by
    simp only [redOf_eq, and_0xFFFFFF_eq_mod]; omega
  have hg : greenOf (s.color &&& 0x00ffffff) = greenOf s.color := by
    simp only [greenOf_eq, and_0xFFFFFF_eq_mod]; omega
  have hb : blueOf (s.color &&& 0x00ffffff) = blueOf s.color := by
    simp only [blueOf_eq, and_0xFFFFFF_eq_mod]; omega
  have h1 := redOf_lt s.color
  have h2 := greenOf_lt s.color
  have h3 := blueOf_lt s.color
  have hc : int32 ((s.color &&& 0x00ffffff : Nat) : Int) = ((s.color &&& 0x00ffffff : Nat) : Int) :=
    int32_of_range _ (by omega) (by omega)
  have hr2 : ((s.color &&& 0x00ffffff) >>> 16) &&& 0x00ff = redOf s.color := hr
  have hg2 : ((s.color &&& 0x00ffffff) >>> 8) &&& 0x00ff = greenOf s.color := hg
  have hb2 : (s.color &&& 0x00ffffff) &&& 0x00ff = blueOf s.color := hb
  simp only [rgb_to_brightness, hc, Int.toNat_ofNat, hr2, hg2, hb2]
  generalize redOf s.color = r at h1
  generalize greenOf s.color = g at h2
  generalize blueOf s.color = b at h3
  rw [int32_of_range (77 * (r : Int)) (by omega) (by omega),
    int32_of_range (150 * (g : Int)) (by omega) (by omega),
    int32_of_range (29 * (b : Int)) (by omega) (by omega),
    int32_of_range (77 * (r : Int) + 150 * (g : Int)) (by omega) (by omega),
    int32_of_range (77 * (r : Int) + 150 * (g : Int) + 29 * (b : Int)) (by omega) (by omega)]
  have hq : shr (77 * (r : Int) + 150 * (g : Int) + 29 * (b : Int)) 8 =
      (((77 * r + 150 * g + 29 * b) / 256 : Nat) : Int) := by
    unfold shr
    push_cast
    norm_num
  rw [hq, int32_of_range _ (by omega) (by omega)]

/-- C11. ToBacklightBrightness: `rgb_to_brightness` returns `(77*R + 150*G + 29*B) >> 8`
for the three low bytes R, G, B of the color; replacing the top byte of the color
(or the flash fields) does not change the result; the result lies in [0,255]; and
`set_light_backlight` issues exactly one write, of this value, to the backlight file. -/
theorem to_backlight_brightness (io : IOState) (dev : Bool) (s : light_state_t) :
    rgb_to_brightness s =
      (((77 * redOf s.color + 150 * greenOf s.color + 29 * blueOf s.color) >>> 8 : Nat) : Int) ∧
    (∀ (top : Nat) (mode onMS offMS : Int),
      rgb_to_brightness (light_state_t.mk (s.color % 2 ^ 24 + top * 2 ^ 24) mode onMS offMS)
        = rgb_to_brightness s) ∧
    (0 ≤ rgb_to_brightness s ∧ rgb_to_brightness s ≤ 255) ∧
    (set_light_backlight io dev s).1.issued =
      io.issued ++ [write_int LCD_FILE (rgb_to_brightness s)] := by
  have h1 := redOf_lt s.color
  have h2 := greenOf_lt s.color
  have h3 := blueOf_lt s.color
  refine ⟨?_, ?_, ?_, ?_⟩
  · rw [rgb_to_brightness_eq, Nat.shiftRight_eq_div_pow]
  · intro top mode onMS offMS
    rw [rgb_to_brightness_eq, rgb_to_brightness_eq]
    have hr : redOf (s.color % 2 ^ 24 + top * 2 ^ 24) = redOf s.color := by
      simp only [redOf_eq]; omega
    have hg : greenOf (s.color % 2 ^ 24 + top * 2 ^ 24) = greenOf s.color := by
      simp only [greenOf_eq]; omega
    have hb : blueOf (s.color % 2 ^ 24 + top * 2 ^ 24) = blueOf s.color := by
      simp only [blueOf_eq]; omega
    simp only [hr, hg, hb]
  · rw [rgb_to_brightness_eq]
    omega
  · unfold set_light_backlight exec_write_int
    simp only []
    split <;> try split
    all_goals rfl

/-- C12. `rgb_to_brightness` is monotonic non-decreasing in each channel: when no
channel byte of the first color exceeds that of the second (in particular when the
colors differ in one channel only), the first result is not larger; the result is
255 for `0xFFFFFF` and 0 for `0x000000`. -/
theorem rgb_to_brightness_monotone (s1 s2 : light_state_t)
    (hr : redOf s1.color ≤ redOf s2.color) (hg : greenOf s1.color ≤ greenOf s2.color)
    (hb : blueOf s1.color ≤ blueOf s2.color) :
    rgb_to_brightness s1 ≤ rgb_to_brightness s2 ∧
    (∀ mode onMS offMS : Int,
      rgb_to_brightness (light_state_t.mk 0xFFFFFF mode onMS offMS) = 255 ∧
      rgb_to_brightness (light_state_t.mk 0x000000 mode onMS offMS) = 0) := by
  refine ⟨?_, fun mode onMS offMS => ⟨?_, ?_⟩⟩
  · rw [rgb_to_brightness_eq, rgb_to_brightness_eq]
    have h : (77 * redOf s1.color + 150 * greenOf s1.color + 29 * blueOf s1.color) / 256 ≤
        (77 * redOf s2.color + 150 * greenOf s2.color + 29 * blueOf s2.color) / 256 :=
      Nat.div_le_div_right (by omega)
    exact_mod_cast h
  · simp only [rgb_to_brightness_eq]; decide
  · simp only [rgb_to_brightness_eq]; decide

/-- C12 at two colors that differ in the green channel only. -/
theorem rgb_to_brightness_monotone_witness :
    rgb_to_brightness (light_state_t.mk 0x102030 0 0 0) ≤
      rgb_to_brightness (light_state_t.mk 0x10F030 0 0 0) :=
  (rgb_to_brightness_monotone (light_state_t.mk 0x102030 0 0 0)
    (light_state_t.mk 0x10F030 0 0 0) (by decide) (by decide) (by decide)).1

/-! ## Executed traces -/

/-- A call is recorded as issued whatever its outcome. -/
theorem exec_call_issued (io : IOState) (c : Call) :
    (exec_call io c).1.issued = io.issued ++ [c] := by
  cases c <;> simp only [exec_call, exec_write_int, exec_write_str] <;>
    generalize io.oracle io.issued.length = o <;> cases o <;> simp only [] <;>
    (try split_ifs) <;> rfl

/-- Every call of a trace is issued, whatever the outcomes. -/
theorem run_calls_issued (io : IOState) (calls : List Call) :
    (run_calls io calls).issued = io.issued ++ calls := by
  induction calls generalizing io with
  | nil => simp [run_calls]
  | cons c rest ih => rw [run_calls, ih, exec_call_issued]; simp

/-- C13. Idempotence of `set_light_battery`: calling it twice in succession with the
same state issues the same calls both times and leaves the globals after the second
call equal to those after the first; executed from any I/O state, the two calls
append the same trace twice. -/
theorem set_light_battery_idempotent (io : IOState) (g : Globals) (dev : Bool)
    (s : light_state_t) :
    (set_light_battery (set_light_battery g dev s).1 dev s).2.1 =
      (set_light_battery g dev s).2.1 ∧
    (set_light_battery (set_light_battery g dev s).1 dev s).1 = (set_light_battery g dev s).1 ∧
    (set_light_battery_io (set_light_battery_io io g dev s).1
        (set_light_battery_io io g dev s).2.1 dev s).1.issued =
      (io.issued ++ (set_light_battery g dev s).2.1) ++ (set_light_battery g dev s).2.1 ∧
    (set_light_battery_io (set_light_battery_io io g dev s).1
        (set_light_battery_io io g dev s).2.1 dev s).2.1 = (set_light_battery_io io g dev s).2.1 := by
  refine ⟨rfl, rfl, ?_, rfl⟩
  simp only [set_light_battery_io, run_calls_issued]
  rfl

/-- C14. `set_light_attention` bookkeeping: attention becomes `flashOnMS` when the
flash mode is HARDWARE, 0 when it is NONE, and is unchanged for any other flash
mode (TIMED among them); the battery and notification slots are unchanged. -/
theorem set_light_attention_bookkeeping (g : Globals) (dev : Bool) (s : light_state_t) :
    (set_light_attention g dev s).1.g_attention =
      (if s.flashMode = LIGHT_FLASH_HARDWARE then s.flashOnMS
        else if s.flashMode = LIGHT_FLASH_NONE then 0 else g.g_attention) ∧
    (s.flashMode = LIGHT_FLASH_HARDWARE → (set_light_attention g dev s).1.g_attention = s.flashOnMS) ∧
    (s.flashMode = LIGHT_FLASH_NONE → (set_light_attention g dev s).1.g_attention = 0) ∧
    (s.flashMode ≠ LIGHT_FLASH_HARDWARE → s.flashMode ≠ LIGHT_FLASH_NONE →
      (set_light_attention g dev s).1.g_attention = g.g_attention) ∧
    (s.flashMode = LIGHT_FLASH_TIMED → (set_light_attention g dev s).1.g_attention = g.g_attention) ∧
    (set_light_attention g dev s).1.g_battery = g.g_battery ∧
    (set_light_attention g dev s).1.g_notification = g.g_notification := by
  have hmain : (set_light_attention g dev s).1.g_attention =
      (if s.flashMode = LIGHT_FLASH_HARDWARE then s.flashOnMS
        else if s.flashMode = LIGHT_FLASH_NONE then 0 else g.g_attention) := by
    simp only [set_light_attention]
    split_ifs <;> rfl
  refine ⟨hmain, ?_, ?_, ?_, ?_, ?_, ?_⟩
  · intro h; rw [hmain, if_pos h]
  · intro h
    have h2 : s.flashMode ≠ LIGHT_FLASH_HARDWARE := by rw [h]; decide
    rw [hmain, if_neg h2, if_pos h]
  · intro h1 h2; rw [hmain, if_neg h1, if_neg h2]
  · intro h
    have h1 : s.flashMode ≠ LIGHT_FLASH_HARDWARE := by rw [h]; decide
    have h2 : s.flashMode ≠ LIGHT_FLASH_NONE := by rw [h]; decide
    rw [hmain, if_neg h1, if_neg h2]
  · simp only [set_light_attention]
    split_ifs <;> rfl
  · simp only [set_light_attention]
    split_ifs <;> rfl

/-- C15. Attention does not affect the render: two globals that agree on the battery
and notification slots render the same calls whatever their attention values; so
the calls of `set_light_attention` are the render of the current slots, the same
for every argument state. -/
theorem attention_does_not_affect_render (g : Globals) (dev : Bool) :
    (∀ a1 a2 : Int,
      handle_speaker_battery_locked (Globals.mk g.g_notification g.g_battery a1) dev =
        handle_speaker_battery_locked (Globals.mk g.g_notification g.g_battery a2) dev) ∧
    (∀ s : light_state_t,
      (set_light_attention g dev s).2.1 = handle_speaker_battery_locked g dev) ∧
    (∀ s1 s2 : light_state_t,
      (set_light_attention g dev s1).2.1 = (set_light_attention g dev s2).2.1) := by
  have h : ∀ s : light_state_t,
      (set_light_attention g dev s).2.1 = handle_speaker_battery_locked g dev := by
    intro s
    simp only [set_light_attention]
    split_ifs <;> rfl
  exact ⟨fun _ _ => rfl, h, fun s1 s2 => by rw [h s1, h s2]⟩

/-- The ramp-step and pause-high writes of a blink render carry `blink_timing`. -/
theorem blink_timing_calls (s : light_state_t)
    (hm : s.flashMode = LIGHT_FLASH_TIMED) (hon : 0 < s.flashOnMS) (hoff : 0 < s.flashOffMS) :
    callsTo RED_RAMP_STEP_MS_FILE (set_speaker_light_locked true s).2 =
      [write_int RED_RAMP_STEP_MS_FILE (blink_timing s.flashOnMS).1] ∧
    callsTo GREEN_RAMP_STEP_MS_FILE (set_speaker_light_locked true s).2 =
      [write_int GREEN_RAMP_STEP_MS_FILE (blink_timing s.flashOnMS).1] ∧
    callsTo BLUE_RAMP_STEP_MS_FILE (set_speaker_light_locked true s).2 =
      [write_int BLUE_RAMP_STEP_MS_FILE (blink_timing s.flashOnMS).1] ∧
    callsTo RED_PAUSE_HI_FILE (set_speaker_light_locked true s).2 =
      [write_int RED_PAUSE_HI_FILE (blink_timing s.flashOnMS).2] ∧
    callsTo GREEN_PAUSE_HI_FILE (set_speaker_light_locked true s).2 =
      [write_int GREEN_PAUSE_HI_FILE (blink_timing s.flashOnMS).2] ∧
    callsTo BLUE_PAUSE_HI_FILE (set_speaker_light_locked true s).2 =
      [write_int BLUE_PAUSE_HI_FILE (blink_timing s.flashOnMS).2] := by
  rw [set_speaker_light_locked_blink s hm hon hoff]
  refine ⟨?_, ?_, ?_, ?_, ?_, ?_⟩ <;>
    simp [callsTo, Call.file, List.filter_cons, apply_ite (List.filter _)]

/-- The notification state `set_light_notifications` stores, by override byte. -/
theorem set_light_notifications_stored (g : Globals) (dev : Bool) (state : light_state_t) :
    (set_light_notifications g dev state).1 =
      Globals.mk
        (if overrideOf state.color > 0 ∧ overrideOf state.color < 0xFF then
          light_state_t.mk
            (uint32 (uint32 (uint32
              ((if redOf state.color > 0
                  then uint32 (redOf state.color * overrideOf state.color) / 0xFF
                  else redOf state.color) <<< 16) +
              uint32 ((if greenOf state.color > 0
                  then uint32 (greenOf state.color * overrideOf state.color) / 0xFF
                  else greenOf state.color) <<< 8)) +
              (if blueOf state.color > 0
                  then uint32 (blueOf state.color * overrideOf state.color) / 0xFF
                  else blueOf state.color)))
            state.flashMode state.flashOnMS state.flashOffMS
        else state)
        g.g_battery g.g_attention := by
  have hr : redOf (state.color &&& 0x00FFFFFF) = redOf state.color := by
    simp only [redOf_eq, and_0xFFFFFF_eq_mod]; omega
  have hg : greenOf (state.color &&& 0x00FFFFFF) = greenOf state.color := by
    simp only [greenOf_eq, and_0xFFFFFF_eq_mod]; omega
  have hbl : blueOf (state.color &&& 0x00FFFFFF) = blueOf state.color := by
    simp only [blueOf_eq, and_0xFFFFFF_eq_mod]; omega
  simp only [set_light_notifications, ← hr, ← hg, ← hbl, overrideOf]
  rfl

/-- A scaled channel is a byte no larger than the channel it comes from. -/
theorem scaled_channel_le (c b : Nat) (hc : c < 256) (hb : b < 255) :
    (if c > 0 then uint32 (c * b) / 0xFF else c) = c * b / 255 ∧ c * b / 255 ≤ c ∧
      c * b / 255 < 256 := by
  have h := scaled_channel c b hc hb
  have hle : c * b / 255 ≤ c := by
    have h1 : c * b ≤ 255 * c := by
      rw [Nat.mul_comm 255 c]
      exact Nat.mul_le_mul_left c (by omega)
    exact Nat.div_le_of_le_mul h1
  by_cases h0 : c > 0
  · rw [if_pos h0]; exact ⟨h.1, hle, h.2⟩
  · have hz : c = 0 := by omega
    subst hz
    simp

/-- Three packed bytes leave the override byte zero. -/
theorem override_of_packed (r g b : Nat) (hr : r < 256) (hg : g < 256) (hb : b < 256) :
    overrideOf (uint32 (uint32 (uint32 (r <<< 16) + uint32 (g <<< 8)) + b)) = 0 := by
  unfold overrideOf
  rw [override_byte_eq]
  simp only [uint32, Nat.shiftLeft_eq]
  omega

/-- C16. The update operations are total: whatever outcome each write gets (any
oracle, any `already_warned` flags), `set_light_notifications`, `set_light_battery`
and `set_light_attention` return 0, every call of the render of the new globals is
issued, and the slot they update holds the new value, the one an all-success run
leaves: the notification slot holds the argument, rescaled by `c * b / 255` per
channel when the override byte `b` is strictly between 0 and 0xFF; the battery slot
holds the argument; attention holds `flashOnMS` for HARDWARE, 0 for NONE and its old
value otherwise.  The other slots are unchanged. -/
theorem update_operations_total (io : IOState) (g : Globals) (dev : Bool) (s : light_state_t) :
    ((set_light_notifications_io io g dev s).2.2 = 0 ∧
      (set_light_notifications_io io g dev s).2.1 =
        (set_light_notifications_io (allOk io.issued) g dev s).2.1 ∧
      (set_light_notifications_io io g dev s).1.issued =
        (set_light_notifications_io (allOk io.issued) g dev s).1.issued ∧
      (set_light_notifications_io io g dev s).2.1 =
        Globals.mk
          (if overrideOf s.color > 0 ∧ overrideOf s.color < 0xFF then
            light_state_t.mk
              (uint32 (uint32 (uint32
                ((if redOf s.color > 0
                    then uint32 (redOf s.color * overrideOf s.color) / 0xFF
                    else redOf s.color) <<< 16) +
                uint32 ((if greenOf s.color > 0
                    then uint32 (greenOf s.color * overrideOf s.color) / 0xFF
                    else greenOf s.color) <<< 8)) +
                (if blueOf s.color > 0
                    then uint32 (blueOf s.color * overrideOf s.color) / 0xFF
                    else blueOf s.color)))
              s.flashMode s.flashOnMS s.flashOffMS
          else s)
          g.g_battery g.g_attention ∧
      ((0 < overrideOf s.color ∧ overrideOf s.color < 0xFF) →
        redOf (set_light_notifications_io io g dev s).2.1.g_notification.color =
          redOf s.color * overrideOf s.color / 255 ∧
        greenOf (set_light_notifications_io io g dev s).2.1.g_notification.color =
          greenOf s.color * overrideOf s.color / 255 ∧
        blueOf (set_light_notifications_io io g dev s).2.1.g_notification.color =
          blueOf s.color * overrideOf s.color / 255 ∧
        overrideOf (set_light_notifications_io io g dev s).2.1.g_notification.color = 0 ∧
        (set_light_notifications_io io g dev s).2.1.g_notification.flashMode = s.flashMode ∧
        (set_light_notifications_io io g dev s).2.1.g_notification.flashOnMS = s.flashOnMS ∧
        (set_light_notifications_io io g dev s).2.1.g_notification.flashOffMS
          = s.flashOffMS) ∧
      (¬ (0 < overrideOf s.color ∧ overrideOf s.color < 0xFF) →
        (set_light_notifications_io io g dev s).2.1.g_notification = s) ∧
      (set_light_notifications_io io g dev s).1.issued =
        io.issued ++
          handle_speaker_battery_locked (set_light_notifications_io io g dev s).2.1 dev) ∧
    ((set_light_battery_io io g dev s).2.2 = 0 ∧
      (set_light_battery_io io g dev s).2.1 =
        (set_light_battery_io (allOk io.issued) g dev s).2.1 ∧
      (set_light_battery_io io g dev s).2.1.g_battery = s ∧
      (set_light_battery_io io g dev s).1.issued =
        (set_light_battery_io (allOk io.issued) g dev s).1.issued ∧
      (set_light_battery_io io g dev s).2.1 = Globals.mk g.g_notification s g.g_attention ∧
      (set_light_battery_io io g dev s).1.issued =
        io.issued ++
          handle_speaker_battery_locked (Globals.mk g.g_notification s g.g_attention) dev) ∧
    ((set_light_attention_io io g dev s).2.2 = 0 ∧
      (set_light_attention_io io g dev s).2.1 =
        (set_light_attention_io (allOk io.issued) g dev s).2.1 ∧
      (set_light_attention_io io g dev s).1.issued =
        (set_light_attention_io (allOk io.issued) g dev s).1.issued ∧
      (set_light_attention_io io g dev s).2.1 =
        Globals.mk g.g_notification g.g_battery
          (if s.flashMode = LIGHT_FLASH_HARDWARE then s.flashOnMS
            else if s.flashMode = LIGHT_FLASH_NONE then 0 else g.g_attention) ∧
      (set_light_attention_io io g dev s).1.issued =
        io.issued ++ handle_speaker_battery_locked g dev) := by
  have hn : (set_light_notifications_io io g dev s).2.1 = (set_light_notifications g dev s).1 := by
    simp only [set_light_notifications_io]
  have hni : (set_light_notifications_io io g dev s).1.issued =
      io.issued ++ handle_speaker_battery_locked (set_light_notifications g dev s).1 dev := by
    simp only [set_light_notifications_io, run_calls_issued, set_light_notifications]
  have ha : (set_light_attention g dev s).1 =
      Globals.mk g.g_notification g.g_battery
        (if s.flashMode = LIGHT_FLASH_HARDWARE then s.flashOnMS
          else if s.flashMode = LIGHT_FLASH_NONE then 0 else g.g_attention) := by
    simp only [set_light_attention]
    split_ifs <;> rfl
  have hac : (set_light_attention g dev s).2.1 = handle_speaker_battery_locked g dev := by
    simp only [set_light_attention]
    split_ifs <;> rfl
  refine ⟨⟨rfl, rfl, ?_, ?_, ?_, ?_, ?_⟩, ⟨rfl, rfl, rfl, ?_, rfl, ?_⟩, ⟨rfl, rfl, ?_, ?_, ?_⟩⟩
  · simp only [set_light_notifications_io, run_calls_issued, allOk]
  · rw [hn, set_light_notifications_stored]
  · intro hb
    obtain ⟨er, _, lr⟩ := scaled_channel_le _ _ (redOf_lt s.color) hb.2
    obtain ⟨eg, _, lg⟩ := scaled_channel_le _ _ (greenOf_lt s.color) hb.2
    obtain ⟨eb, _, lb⟩ := scaled_channel_le _ _ (blueOf_lt s.color) hb.2
    rw [hn, set_light_notifications_stored, if_pos ⟨hb.1, hb.2⟩]
    simp only [er, eg, eb]
    obtain ⟨c1, c2, c3⟩ := channels_of_packed _ _ _ lr lg lb
    refine ⟨c1, c2, c3, override_of_packed _ _ _ lr lg lb, ?_, ?_, ?_⟩ <;> trivial
  · intro hb
    have hb2 : ¬ (overrideOf s.color > 0 ∧ overrideOf s.color < 0xFF) := hb
    rw [hn, set_light_notifications_stored, if_neg hb2]
  · rw [hni, hn]
  · simp only [set_light_battery_io, run_calls_issued, allOk]
  · simp only [set_light_battery_io, run_calls_issued, set_light_battery]
  · simp only [set_light_attention_io, run_calls_issued, allOk]
  · simp only [set_light_attention_io]
    exact ha
  · simp only [set_light_attention_io, run_calls_issued]
    rw [hac]

/-- C18. Blink timing never overruns the requested on-time: for a TIMED state with
positive on and off times (the on-time an `int`), the pause-high and ramp step
written to the three channels satisfy `pauseHi >= 0`, `0 <= step <= 50` and
`16 * step + pauseHi <= flashOnMS`, with equality from 800 on and a shortfall of at
most 15 below; the step is 0 exactly when `flashOnMS < 16`. -/
theorem blink_timing_never_overruns (s : light_state_t)
    (hm : s.flashMode = LIGHT_FLASH_TIMED) (hon : 0 < s.flashOnMS) (hoff : 0 < s.flashOffMS)
    (hhi : s.flashOnMS < 2 ^ 31) :
    ∃ stepDuration pauseHi : Int,
      (callsTo RED_RAMP_STEP_MS_FILE (set_speaker_light_locked true s).2 =
          [write_int RED_RAMP_STEP_MS_FILE stepDuration] ∧
        callsTo GREEN_RAMP_STEP_MS_FILE (set_speaker_light_locked true s).2 =
          [write_int GREEN_RAMP_STEP_MS_FILE stepDuration] ∧
        callsTo BLUE_RAMP_STEP_MS_FILE (set_speaker_light_locked true s).2 =
          [write_int BLUE_RAMP_STEP_MS_FILE stepDuration] ∧
        callsTo RED_PAUSE_HI_FILE (set_speaker_light_locked true s).2 =
          [write_int RED_PAUSE_HI_FILE pauseHi] ∧
        callsTo GREEN_PAUSE_HI_FILE (set_speaker_light_locked true s).2 =
          [write_int GREEN_PAUSE_HI_FILE pauseHi] ∧
        callsTo BLUE_PAUSE_HI_FILE (set_speaker_light_locked true s).2 =
          [write_int BLUE_PAUSE_HI_FILE pauseHi]) ∧
      0 ≤ pauseHi ∧ 0 ≤ stepDuration ∧ stepDuration ≤ 50 ∧
      16 * stepDuration + pauseHi ≤ s.flashOnMS ∧
      (800 ≤ s.flashOnMS → 16 * stepDuration + pauseHi = s.flashOnMS) ∧
      (s.flashOnMS < 800 → s.flashOnMS - (16 * stepDuration + pauseHi) ≤ 15) ∧
      (stepDuration = 0 ↔ s.flashOnMS < 16) := by
  refine ⟨(blink_timing s.flashOnMS).1, (blink_timing s.flashOnMS).2,
    blink_timing_calls s hm hon hoff, ?_⟩
  rw [blink_timing_eq s.flashOnMS hon hhi]
  by_cases h : s.flashOnMS < 800
  · rw [if_pos h]
    simp only []
    refine ⟨?_, ?_, ?_, ?_, ?_, ?_, ?_⟩ <;> omega
  · rw [if_neg h]
    simp only []
    refine ⟨?_, ?_, ?_, ?_, ?_, ?_, ?_⟩ <;> omega

/-- C18 at `flashOnMS = 100`: ramp step 6, pause-high 0, shortfall 4. -/
theorem blink_timing_never_overruns_witness :
    ∃ stepDuration pauseHi : Int,
      callsTo RED_RAMP_STEP_MS_FILE
          (set_speaker_light_locked true (light_state_t.mk 0xFF0000 LIGHT_FLASH_TIMED 100 200)).2
          = [write_int RED_RAMP_STEP_MS_FILE stepDuration] ∧
      callsTo RED_PAUSE_HI_FILE
          (set_speaker_light_locked true (light_state_t.mk 0xFF0000 LIGHT_FLASH_TIMED 100 200)).2
          = [write_int RED_PAUSE_HI_FILE pauseHi] ∧
      16 * stepDuration + pauseHi ≤ 100 :=
  have ⟨st, ph, hc, _, _, _, hle, _⟩ :=
    blink_timing_never_overruns (light_state_t.mk 0xFF0000 LIGHT_FLASH_TIMED 100 200)
      rfl (by decide) (by decide) (by decide)
  ⟨st, ph, hc.1, hc.2.2.2.1, hle⟩

/-- C19. Notification rescaling is applied once and is stable: when the override
byte of the input color is strictly between 0 and 0xFF, the stored color has
override byte 0 and no stored channel exceeds the input channel; and for every
input state, passing the stored notification state to `set_light_notifications`
again stores the same globals and issues the same calls. -/
theorem notification_rescale_stable (g : Globals) (dev : Bool) (state : light_state_t) :
    ((0 < overrideOf state.color ∧ overrideOf state.color < 0xFF) →
      overrideOf (set_light_notifications g dev state).1.g_notification.color = 0 ∧
      redOf (set_light_notifications g dev state).1.g_notification.color ≤ redOf state.color ∧
      greenOf (set_light_notifications g dev state).1.g_notification.color
        ≤ greenOf state.color ∧
      blueOf (set_light_notifications g dev state).1.g_notification.color
        ≤ blueOf state.color) ∧
    (set_light_notifications (set_light_notifications g dev state).1 dev
        (set_light_notifications g dev state).1.g_notification).1 =
      (set_light_notifications g dev state).1 ∧
    (set_light_notifications (set_light_notifications g dev state).1 dev
        (set_light_notifications g dev state).1.g_notification).2.1 =
      (set_light_notifications g dev state).2.1 := by
  have hov : overrideOf state.color < 256 := by
    unfold overrideOf; rw [override_byte_eq]; omega
  have hfix : ∀ (g0 : Globals) (x : light_state_t),
      ¬ (overrideOf x.color > 0 ∧ overrideOf x.color < 0xFF) →
      (set_light_notifications g0 dev x).1 = Globals.mk x g0.g_battery g0.g_attention := by
    intro g0 x hx
    rw [set_light_notifications_stored, if_neg hx]
  have hcalls : ∀ (g0 : Globals) (x : light_state_t),
      (set_light_notifications g0 dev x).2.1 =
        handle_speaker_battery_locked (set_light_notifications g0 dev x).1 dev := by
    intro g0 x
    simp only [set_light_notifications]
  have hidem : (set_light_notifications (set_light_notifications g dev state).1 dev
        (set_light_notifications g dev state).1.g_notification).1 =
      (set_light_notifications g dev state).1 := by
    by_cases hb : overrideOf state.color > 0 ∧ overrideOf state.color < 0xFF
    · obtain ⟨er, _, lr⟩ := scaled_channel_le _ _ (redOf_lt state.color) hb.2
      obtain ⟨eg, _, lg⟩ := scaled_channel_le _ _ (greenOf_lt state.color) hb.2
      obtain ⟨eb, _, lb⟩ := scaled_channel_le _ _ (blueOf_lt state.color) hb.2
      have h0 : overrideOf (set_light_notifications g dev state).1.g_notification.color = 0 := by
        rw [set_light_notifications_stored, if_pos hb]
        simp only [er, eg, eb]
        exact override_of_packed _ _ _ lr lg lb
      rw [hfix _ _ (by omega)]
    · rw [hfix g state hb]
      exact hfix _ _ hb
  refine ⟨?_, hidem, ?_⟩
  · intro hb
    obtain ⟨er, ler, lr⟩ := scaled_channel_le _ _ (redOf_lt state.color) hb.2
    obtain ⟨eg, leg, lg⟩ := scaled_channel_le _ _ (greenOf_lt state.color) hb.2
    obtain ⟨eb, leb, lb⟩ := scaled_channel_le _ _ (blueOf_lt state.color) hb.2
    rw [set_light_notifications_stored, if_pos ⟨hb.1, hb.2⟩]
    simp only [er, eg, eb]
    obtain ⟨c1, c2, c3⟩ := channels_of_packed _ _ _ lr lg lb
    refine ⟨override_of_packed _ _ _ lr lg lb, ?_, ?_, ?_⟩
    · rw [c1]; exact ler
    · rw [c2]; exact leg
    · rw [c3]; exact leb
  · exact (hcalls _ _).trans ((congrArg (fun g1 => handle_speaker_battery_locked g1 dev)
      hidem).trans (hcalls g state).symm)

/-- The decimal numeral of a number up to 100 has at most three characters. -/
theorem toString_length_le_three (n : Nat) (hn : n ≤ 100) : (toString n).length ≤ 3 :=
  Nat.repr_length n 3 (by decide) (by omega)

/-- C20. The duty-table text is exact and fits its buffers: for a brightness `b` in
[0,255] the text built by `get_scaled_duty_pcts` is the 8 scaled entries in decimal
joined by single commas; every entry is at most 100, so each piece (separator plus
digits) has at most 4 characters and is not cut by the 5-byte temporary; the whole
text has at most 39 characters and fits the 40-byte buffer with its terminator. -/
theorem duty_text_fits (b : Nat) (hb : b ≤ 255) :
    get_scaled_duty_pcts (b : Int) = dutyText (ScaleDutyTable b) ∧
    (∀ e ∈ ScaleDutyTable b, e ≤ 100) ∧
    (∀ (e : Nat) (pad : String), e ∈ RampTable → pad.length ≤ 1 →
      snprintf_sd 5 pad ((int32 ((e : Int) * (b : Int))).tdiv 255) =
        pad ++ toString (e * b / 255) ∧
      (pad ++ toString (e * b / 255)).length ≤ 4) ∧
    (get_scaled_duty_pcts (b : Int)).length ≤ 39 ∧
    (get_scaled_duty_pcts (b : Int)).length + 1 ≤ DUTY_BUF_SIZE ∧
    DUTY_BUF_SIZE = 40 ∧
    get_scaled_duty_pcts 255 = "0,12,25,37,50,72,85,100" := by
  have hramp : ∀ e ∈ RampTable, e ≤ 100 := by decide
  have hentry : ∀ e : Nat, e ≤ 100 → e * b / 255 ≤ 100 := fun e he => (scaled_entry e b he hb).2
  have hlen : (get_scaled_duty_pcts (b : Int)).length ≤ 39 := by
    rw [get_scaled_duty_pcts_eq b hb]
    have l0 := toString_length_le_three _ (hentry 0 (by decide))
    have l1 := toString_length_le_three _ (hentry 12 (by decide))
    have l2 := toString_length_le_three _ (hentry 25 (by decide))
    have l3 := toString_length_le_three _ (hentry 37 (by decide))
    have l4 := toString_length_le_three _ (hentry 50 (by decide))
    have l5 := toString_length_le_three _ (hentry 72 (by decide))
    have l6 := toString_length_le_three _ (hentry 85 (by decide))
    have l7 := toString_length_le_three _ (hentry 100 (by decide))
    have hcomma : ("," : String).length = 1 := rfl
    simp only [dutyText, ScaleDutyTable, RampTable, List.map, String.intercalate,
      String.intercalate.go, String.length_append, hcomma]
    omega
  refine ⟨get_scaled_duty_pcts_eq b hb, ?_, ?_, hlen, ?_, rfl, by decide⟩
  · intro e he
    simp only [ScaleDutyTable, List.mem_map] at he
    obtain ⟨e0, h0, rfl⟩ := he
    exact hentry e0 (hramp e0 h0)
  · intro e pad he hp
    obtain ⟨h1, h2⟩ := scaled_entry e b (hramp e he) hb
    have h3 := toString_length_le_three _ h2
    refine ⟨by rw [h1, snprintf_sd_fits pad _ hp h2], ?_⟩
    rw [String.length_append]
    omega
  · have hsize : DUTY_BUF_SIZE = 40 := rfl
    omega

/-- C20 at brightness 255: the text is the ramp table, 23 characters. -/
theorem duty_text_fits_witness :
    get_scaled_duty_pcts 255 = "0,12,25,37,50,72,85,100" ∧
    (get_scaled_duty_pcts 255).length + 1 ≤ DUTY_BUF_SIZE :=
  ⟨(duty_text_fits 255 (by decide)).2.2.2.2.2.2, (duty_text_fits 255 (by decide)).2.2.2.2.1⟩

end Lights
